import Mathlib

/-!
Verification of the fetch-normalize-retry pipeline of the reddit-scraper-actor
repository.  The Python sources (src/utils/helpers.py, src/services/reddit_service.py,
src/config.py, src/main.py) are shallowly embedded: raw upstream JSON is a `Json`
tree, Python dict access is total lookup with a default, fallible Python code
(code that can raise) returns `Except String _` where the string names the Python
exception class, and the HTTP layer is an oracle mapping (url, attempt index) to
an outcome.  JSON numbers are modelled as integers (the claims under study never
depend on fractional values).
-/

/-- A Python/JSON value as received from the upstream API. -/
inductive Json where
  | null : Json
  | bool : Bool → Json
  | int : Int → Json
  | str : String → Json
  | arr : List Json → Json
  | obj : List (String × Json) → Json
deriving Inhabited

mutual
/-- Structural boolean equality of JSON values. -/
def jsonBeq : Json → Json → Bool
  | .null, .null => true
  | .bool a, .bool b => a == b
  | .int a, .int b => a == b
  | .str a, .str b => a == b
  | .arr a, .arr b => jsonBeqList a b
  | .obj a, .obj b => jsonBeqObj a b
  | _, _ => false

/-- Elementwise boolean equality of JSON lists. -/
def jsonBeqList : List Json → List Json → Bool
  | [], [] => true
  | a :: as', b :: bs => jsonBeq a b && jsonBeqList as' bs
  | _, _ => false

/-- Entrywise boolean equality of JSON dict entry lists. -/
def jsonBeqObj : List (String × Json) → List (String × Json) → Bool
  | [], [] => true
  | a :: as', b :: bs => (a.1 == b.1 && jsonBeq a.2 b.2) && jsonBeqObj as' bs
  | _, _ => false
end

instance : BEq Json := ⟨jsonBeq⟩

/-- `dict.get(key, default)`: total association-list lookup with a default,
modelling Python dictionary `.get`. -/
def dget (d : List (String × Json)) (k : String) (dflt : Json) : Json :=
  match d.lookup k with
  | some v => v
  | none => dflt

/-- Python truthiness of a JSON value (`bool(v)`). -/
def truthy : Json → Bool
  | .null => false
  | .bool b => b
  | .int n => decide (n ≠ 0)
  | .str s => decide (s ≠ "")
  | .arr l => ! l.isEmpty
  | .obj es => ! es.isEmpty

/-- Python `==` on JSON values, modelled as structural equality.  (The only
deviation from CPython is `True == 1`, which no embedded comparison exercises:
the source only compares against string literals.) -/
def jsonEqb (a b : Json) : Bool := jsonBeq a b

/-- `.get` on a value that must be a dict: returns its entries, or raises
`AttributeError` the way CPython does when the receiver is not a dict. -/
def jsonAsDict : Json → Except String (List (String × Json))
  | .obj es => .ok es
  | _ => .error "AttributeError"

/-- Using a value where a list is required (slicing); raises `TypeError`
otherwise. -/
def jsonAsList : Json → Except String (List Json)
  | .arr l => .ok l
  | _ => .error "TypeError"

/-- `for x in v`: iteration over a JSON value.  Lists yield elements, dicts
yield their keys, strings yield one-character strings; other values raise
`TypeError`. -/
def jsonIter : Json → Except String (List Json)
  | .arr l => .ok l
  | .obj es => .ok (es.map (fun e => Json.str e.1))
  | .str s => .ok (s.data.map (fun ch => Json.str (String.singleton ch)))
  | _ => .error "TypeError"

/-- Python `key in v` (membership test).  Dicts test keys, lists test element
membership, strings test substring containment; other values raise `TypeError`. -/
def pyContains (container : Json) (key : String) : Except String Bool :=
  match container with
  | .obj es => .ok (es.lookup key).isSome
  | .arr l => .ok (l.contains (Json.str key))
  | .str s => .ok (List.range (s.data.length + 1) |>.any
      (fun i => (s.data.drop i).take key.data.length == key.data))
  | _ => .error "TypeError"

/-- `v[key]` subscription with a string key: only dicts support it (`KeyError`
when the key is missing); lists and strings need integer indices (`TypeError`). -/
def pyIndexStr (v : Json) (key : String) : Except String Json :=
  match v with
  | .obj es =>
    match es.lookup key with
    | some x => .ok x
    | none => .error "KeyError"
  | _ => .error "TypeError"

mutual
/-- Python `str()` / `repr()` rendering of a JSON value (`asRepr` selects
`repr`, which quotes strings); used for f-string interpolation. -/
def pyRender (asRepr : Bool) : Json → String
  | .null => "None"
  | .bool b => if b then "True" else "False"
  | .int n => toString n
  | .str s => if asRepr then "\x27" ++ s ++ "\x27" else s
  | .arr l => "[" ++ pyRenderList l ++ "]"
  | .obj es => "\x7b" ++ pyRenderObj es ++ "\x7d"

/-- Comma-separated `repr` rendering of list elements. -/
def pyRenderList : List Json → String
  | [] => ""
  | [x] => pyRender true x
  | x :: xs => pyRender true x ++ ", " ++ pyRenderList xs

/-- Comma-separated `repr` rendering of dict entries. -/
def pyRenderObj : List (String × Json) → String
  | [] => ""
  | [e] => "\x27" ++ e.1 ++ "\x27: " ++ pyRender true e.2
  | e :: es => "\x27" ++ e.1 ++ "\x27: " ++ pyRender true e.2 ++ ", " ++ pyRenderObj es
end

/-- Python `str()` of a JSON value, as used by f-string interpolation. -/
def pyStr (v : Json) : String := pyRender false v

/-- Characters stripped by Python `str.strip()` with no argument. -/
def isPyWhitespace (c : Char) : Bool :=
  c = ' ' || c = '\t' || c = '\n' || c = '\r' || c = '\x0b' || c = '\x0c'

/-- Python `str.strip()`: drop whitespace from both ends. -/
def pyStrip (s : String) : String :=
  ⟨((s.data.dropWhile isPyWhitespace).reverse.dropWhile isPyWhitespace).reverse⟩

/-- Python `str.lstrip(chars)`: drop from the left every character that occurs
in `chars` (a character-set trim, not a literal-prefix removal). -/
def pyLstrip (chars : List Char) (s : String) : String :=
  ⟨s.data.dropWhile (fun c => chars.contains c)⟩

/-- helpers.clean_subreddit_name: `subreddit.strip().lstrip("r/")`. -/
def clean_subreddit_name (subreddit : String) : String :=
  pyLstrip ['r', '/'] (pyStrip subreddit)

/-- `datetime.fromtimestamp` / `isoformat` support: zero-padded decimal. -/
def padNum (width : Nat) (n : Nat) : String :=
  let s := toString n
  ⟨List.replicate (width - s.length) '0'⟩ ++ s

/-- Proleptic-Gregorian civil date (year, month, day) of a day count relative
to 1970-01-01 (Howard Hinnant's `civil_from_days`). -/
def civilFromDays (z0 : Int) : Int × Int × Int :=
  let z : Int := z0 + 719468
  let era : Int := z / 146097
  let doe : Int := z - era * 146097
  let yoe : Int := (doe - doe / 1460 + doe / 36524 - doe / 146096) / 365
  let y : Int := yoe + era * 400
  let doy : Int := doe - (365 * yoe + yoe / 4 - yoe / 100)
  let mp : Int := (5 * doy + 2) / 153
  let d : Int := doy - (153 * mp + 2) / 5 + 1
  let m : Int := mp + (if mp < 10 then 3 else -9)
  (y + (if m ≤ 2 then 1 else 0), m, d)

/-- ISO-8601 UTC rendering of an epoch second count, as produced by
`datetime.fromtimestamp(ts, tz=timezone.utc).isoformat()` on whole seconds. -/
def isoUtc (ts : Int) : String :=
  let days : Int := ts / 86400
  let secs : Nat := (ts - days * 86400).toNat
  let c := civilFromDays days
  padNum 4 c.1.toNat ++ "-" ++ padNum 2 c.2.1.toNat ++ "-" ++ padNum 2 c.2.2.toNat ++
    "T" ++ padNum 2 (secs / 3600) ++ ":" ++ padNum 2 (secs % 3600 / 60) ++ ":" ++
    padNum 2 (secs % 60) ++ "+00:00"

/-- The numeric reading of a JSON value accepted by `datetime.fromtimestamp`
(Python `bool` is an `int` subclass; anything else raises `TypeError`). -/
def jsonToNumber : Json → Option Int
  | .int n => some n
  | .bool b => some (if b then 1 else 0)
  | _ => none

/-- Lower bound of `datetime.fromtimestamp`: the epoch second of 0001-01-01. -/
def MIN_DATETIME_TS : Int := -62135596800

/-- Upper bound of `datetime.fromtimestamp`: the epoch second of
9999-12-31 23:59:59. -/
def MAX_DATETIME_TS : Int := 253402300799

/-- Does `format_timestamp` succeed on this JSON value?  True exactly when the
value reads as a number within datetime's representable range. -/
def tsOk (v : Json) : Bool :=
  match jsonToNumber v with
  | some ts => decide (MIN_DATETIME_TS ≤ ts ∧ ts ≤ MAX_DATETIME_TS)
  | none => false

/-- helpers.format_timestamp: `datetime.fromtimestamp(ts, tz=utc).isoformat()`.
Raises `TypeError` on non-numeric input and a range error outside datetime's
representable years, exactly as CPython does. -/
def format_timestamp (v : Json) : Except String String :=
  match jsonToNumber v with
  | none => .error "TypeError"
  | some ts =>
    if ts < MIN_DATETIME_TS ∨ MAX_DATETIME_TS < ts then .error "ValueError"
    else .ok (isoUtc ts)

/-- The configuration input dictionary, typed per the recognized-keys schema
(spec section 6); `none` models an absent key. -/
structure InputData where
  subreddits : Option (List String)
  searchQuery : Option String
  sortBy : Option String
  timeFilter : Option String
  limit : Option Int
  includeComments : Option Bool
  maxCommentsPerPost : Option Int
deriving DecidableEq

/-- helpers.validate_input: raises `ValueError` (here `.error`) unless a
community list or search query is present, the sort is recognized, and the
limit is an integer in [1,100].  (Error messages are abridged.) -/
def validate_input (input_data : InputData) : Except String Unit :=
  let subreddits := input_data.subreddits.getD []
  let search_query := input_data.searchQuery.getD ""
  if subreddits = [] ∧ search_query = "" then
    .error "Either subreddits or searchQuery must be provided"
  else
    let sort_by := input_data.sortBy.getD "new"
    if sort_by ∉ ["new", "hot", "top", "rising"] then
      .error "Invalid sortBy"
    else
      let limit := input_data.limit.getD 25
      if limit < 1 ∨ limit > 100 then
        .error "limit must be an integer between 1 and 100"
      else .ok ()

/-- One normalized top-level comment, mirroring the dict built by
helpers.normalize_comment_data. -/
structure Comment where
  id : Json
  author : Json
  body : Json
  score : Json
  created_utc : Json
  created_at : String
  permalink : String
  is_submitter : Json
  parent_id : Json
  post_id : String
deriving Inhabited

/-- One normalized submission, mirroring the dict built by
helpers.normalize_post_data.  Raw field values stay as JSON; `created_at`,
`permalink`, `source_type` and `source_name` are the strings the code computes.
`comments` models the optional `"comments"` key that only the orchestrator adds
(`none` = key absent). -/
structure Post where
  id : Json
  title : Json
  selftext : Json
  author : Json
  subreddit : Json
  score : Json
  upvote_ratio : Json
  num_comments : Json
  created_utc : Json
  created_at : String
  url : Json
  permalink : String
  is_self : Json
  is_video : Json
  thumbnail : Json
  domain : Json
  source_type : String
  source_name : String
  comments : Option (List Comment)
deriving Inhabited

/-- helpers.normalize_post_data: field-by-field default substitution; the only
fallible step is `format_timestamp` on the raw `created_utc` (evaluated while
the dict literal is built, so its exception propagates). -/
def normalize_post_data (post_data : List (String × Json)) (source_type source_name : String) :
    Except String Post := do
  let created_at ← format_timestamp (dget post_data "created_utc" (Json.int 0))
  .ok
    ⟨dget post_data "id" (Json.str ""),
     dget post_data "title" (Json.str ""),
     dget post_data "selftext" (Json.str ""),
     dget post_data "author" (Json.str "[deleted]"),
     dget post_data "subreddit" (Json.str source_name),
     dget post_data "score" (Json.int 0),
     dget post_data "upvote_ratio" (Json.int 0),
     dget post_data "num_comments" (Json.int 0),
     dget post_data "created_utc" (Json.int 0),
     created_at,
     dget post_data "url" (Json.str ""),
     "https://reddit.com" ++ pyStr (dget post_data "permalink" (Json.str "")),
     dget post_data "is_self" (Json.bool false),
     dget post_data "is_video" (Json.bool false),
     dget post_data "thumbnail" (Json.str ""),
     dget post_data "domain" (Json.str ""),
     source_type,
     source_name,
     none⟩

/-- helpers.normalize_comment_data: same default-substitution discipline. -/
def normalize_comment_data (comment_data : List (String × Json)) (post_id : String) :
    Except String Comment := do
  let created_at ← format_timestamp (dget comment_data "created_utc" (Json.int 0))
  .ok
    ⟨dget comment_data "id" (Json.str ""),
     dget comment_data "author" (Json.str "[deleted]"),
     dget comment_data "body" (Json.str ""),
     dget comment_data "score" (Json.int 0),
     dget comment_data "created_utc" (Json.int 0),
     created_at,
     "https://reddit.com" ++ pyStr (dget comment_data "permalink" (Json.str "")),
     dget comment_data "is_submitter" (Json.bool false),
     dget comment_data "parent_id" (Json.str ""),
     post_id⟩

/-- config.REDDIT_BASE_URL. -/
def REDDIT_BASE_URL : String := "https://old.reddit.com"

/-- config.MAX_POSTS_PER_REQUEST. -/
def MAX_POSTS_PER_REQUEST : Int := 100

/-- config.MAX_COMMENTS_PER_REQUEST. -/
def MAX_COMMENTS_PER_REQUEST : Int := 100

/-- config.DEFAULT_SORT. -/
def DEFAULT_SORT : String := "new"

/-- config.DEFAULT_TIME_FILTER. -/
def DEFAULT_TIME_FILTER : String := "day"

/-- config.DEFAULT_LIMIT. -/
def DEFAULT_LIMIT : Int := 25

/-- config.DEFAULT_MAX_COMMENTS. -/
def DEFAULT_MAX_COMMENTS : Int := 10

/-- config.VALID_SORT_OPTIONS. -/
def VALID_SORT_OPTIONS : List String := ["new", "hot", "top", "rising"]

/-- config.VALID_TIME_FILTERS. -/
def VALID_TIME_FILTERS : List String := ["hour", "day", "week", "month", "year", "all"]

/-- config.DELAY_BETWEEN_SUBREDDITS_SECONDS. -/
def DELAY_BETWEEN_SUBREDDITS_SECONDS : ℚ := 1

/-- The limit value RedditService._build_subreddit_url embeds in the query
string: `min(limit, MAX_POSTS_PER_REQUEST)` — an upper clamp only. -/
def subredditLimitParam (limit : Int) : Int := min limit MAX_POSTS_PER_REQUEST

/-- The query-string join `"&".join(f"\x7bk\x7d=\x7bv\x7d" for ...)` used by the
URL builders. -/
def joinParams : List (String × String) → String
  | [] => ""
  | [p] => p.1 ++ "=" ++ p.2
  | p :: ps => p.1 ++ "=" ++ p.2 ++ "&" ++ joinParams ps

/-- RedditService._build_subreddit_url: clean the name, then render
`<base>/r/<name>/<sort>.json?limit=<v>` plus `&t=<time_filter>` exactly when
`sort == "top"` and the time filter is recognized. -/
def _build_subreddit_url (subreddit sort time_filter : String) (limit : Int) : String :=
  let clean_name := clean_subreddit_name subreddit
  let url := REDDIT_BASE_URL ++ "/r/" ++ clean_name ++ "/" ++ sort ++ ".json"
  let params : List (String × String) :=
    [("limit", toString (subredditLimitParam limit))] ++
      (if sort = "top" ∧ time_filter ∈ VALID_TIME_FILTERS then [("t", time_filter)] else [])
  url ++ "?" ++ joinParams params

/-- RedditService._build_search_url: `<base>/search.json?q=<query>&limit=<v>&sort=<sort>`
with a plain `key=value` join — the query is embedded verbatim, with no URL
encoding. -/
def _build_search_url (query sort : String) (limit : Int) : String :=
  let url := REDDIT_BASE_URL ++ "/search.json"
  let params : List (String × String) :=
    [("q", query), ("limit", toString (min limit MAX_POSTS_PER_REQUEST)), ("sort", sort)]
  url ++ "?" ++ joinParams params

/-- One outcome of `session.get(url)` for a single attempt: either a real HTTP
response (with the parsed JSON body when `.json()` succeeds, and the body text
when `.text()` succeeds), or a transport-level exception. -/
inductive HttpAttempt where
  | response (status : Nat) (jsonBody : Option Json) (text : Option String)
  | exc
deriving Inhabited

/-- The network, abstracted: what `session.get(url)` yields on attempt `i`. -/
def HttpOracle := String → Nat → HttpAttempt

/-- The body of `for attempt in attempts` inside
RedditService._make_request_with_retry, returning the `(status_code, data)`
pair together with the list of back-off sleep durations performed (in order).
Falling off the end of the loop yields `(None, None)`. -/
def retryGo (oracle : HttpOracle) (url : String) (max_retries : Nat) (retry_delay : ℚ) :
    List Nat → List ℚ → (Option Nat × Option Json) × List ℚ
  | [], sleeps => ((none, none), sleeps)
  | attempt :: rest, sleeps =>
    match oracle url attempt with
    | .response status body text =>
      if status = 200 then ((some status, body), sleeps)
      else if status = 403 ∧ attempt < max_retries - 1 then
        retryGo oracle url max_retries retry_delay rest (sleeps ++ [retry_delay * 2 ^ attempt])
      else ((some status, text.map (fun t => Json.obj [("error", Json.str t)])), sleeps)
    | .exc =>
      if attempt < max_retries - 1 then
        retryGo oracle url max_retries retry_delay rest (sleeps ++ [retry_delay * 2 ^ attempt])
      else retryGo oracle url max_retries retry_delay rest sleeps

/-- RedditService._make_request_with_retry: up to `max_retries` attempts over
`range(max_retries)`; 200 returns the parsed body (or a null body on a parse
failure), 403 with attempts remaining sleeps `retry_delay * 2 ** attempt` and
retries, any other status returns `(status, {"error": text})`, a transport
exception retries on the same schedule, and exhaustion returns `(None, None)`.
The function itself never raises: every exception inside an attempt is caught. -/
def _make_request_with_retry (oracle : HttpOracle) (url : String)
    (max_retries : Nat) (retry_delay : ℚ) : (Option Nat × Option Json) × List ℚ :=
  retryGo oracle url max_retries retry_delay (List.range max_retries) []

/-- The `try:` body of RedditService.get_posts_from_subreddit, with each
possible runtime exception surfaced as `.error`. -/
def get_posts_core (oracle : HttpOracle) (subreddit sort time_filter : String)
    (limit : Int) : Except String (List Post) := do
  let clean_name := clean_subreddit_name subreddit
  let url := _build_subreddit_url clean_name sort time_filter limit
  let r := _make_request_with_retry oracle url 3 2
  let status_code := r.1.1
  let data := r.1.2
  if status_code.isNone || data.isNone then .ok []
  else if status_code = some 200 then
    match data with
    | none => .ok []
    | some dv => do
      let hasData ← pyContains dv "data"
      if hasData then do
        let inner ← pyIndexStr dv "data"
        let hasChildren ← pyContains inner "children"
        if hasChildren then do
          let childrenV ← pyIndexStr inner "children"
          let children ← jsonIter childrenV
          let posts ← children.mapM (fun child => do
            let cd ← jsonAsDict child
            let post_data ← jsonAsDict (dget cd "data" (Json.obj []))
            normalize_post_data post_data "subreddit" clean_name)
          .ok posts
        else .ok []
      else .ok []
  else .ok []

/-- RedditService.get_posts_from_subreddit: the `try:` body with its enclosing
`except Exception` handler, which degrades every failure to `[]`. -/
def get_posts_from_subreddit (oracle : HttpOracle) (subreddit sort time_filter : String)
    (limit : Int) : List Post :=
  match get_posts_core oracle subreddit sort time_filter limit with
  | .ok posts => posts
  | .error _ => []

/-- The `try:` body of RedditService.search_posts. -/
def search_posts_core (oracle : HttpOracle) (query sort : String)
    (limit : Int) : Except String (List Post) := do
  let url := _build_search_url query sort limit
  let r := _make_request_with_retry oracle url 3 2
  let status_code := r.1.1
  let data := r.1.2
  if status_code.isNone || data.isNone then .ok []
  else if status_code = some 200 then
    match data with
    | none => .ok []
    | some dv => do
      let hasData ← pyContains dv "data"
      if hasData then do
        let inner ← pyIndexStr dv "data"
        let hasChildren ← pyContains inner "children"
        if hasChildren then do
          let childrenV ← pyIndexStr inner "children"
          let children ← jsonIter childrenV
          let posts ← children.mapM (fun child => do
            let cd ← jsonAsDict child
            let post_data ← jsonAsDict (dget cd "data" (Json.obj []))
            normalize_post_data post_data "search" query)
          .ok posts
        else .ok []
      else .ok []
  else .ok []

/-- RedditService.search_posts with its enclosing `except Exception` handler. -/
def search_posts (oracle : HttpOracle) (query sort : String) (limit : Int) : List Post :=
  match search_posts_core oracle query sort limit with
  | .ok posts => posts
  | .error _ => []

/-- The `for child in comments_data[:max_comments]` loop of
RedditService.get_comments_for_post: keep children whose `kind` is `"t1"`
(excluding `"more"` placeholder nodes) with a truthy body that is not the
literal `"[deleted]"`, normalizing each kept child. -/
def commentsLoop (post_id : String) : List Json → Except String (List Comment)
  | [] => .ok []
  | child :: rest => do
    let cdict ← jsonAsDict child
    let comment_data := dget cdict "data" (Json.obj [])
    if jsonEqb (dget cdict "kind" Json.null) (Json.str "t1") then do
      let ces ← jsonAsDict comment_data
      let body := dget ces "body" Json.null
      if truthy body && ! jsonEqb body (Json.str "[deleted]") then do
        let c ← normalize_comment_data ces post_id
        let cs ← commentsLoop post_id rest
        .ok (c :: cs)
      else commentsLoop post_id rest
    else commentsLoop post_id rest

/-- The `try:` body of RedditService.get_comments_for_post (after the
`max_comments <= 0` short-circuit). -/
def get_comments_core (oracle : HttpOracle) (post_id subreddit : String)
    (max_comments : Int) : Except String (List Comment) := do
  let clean_name := clean_subreddit_name subreddit
  let url := REDDIT_BASE_URL ++ "/r/" ++ clean_name ++ "/comments/" ++ post_id ++ ".json"
  let full_url := url ++ "?limit=" ++ toString (min max_comments MAX_COMMENTS_PER_REQUEST)
  let r := _make_request_with_retry oracle full_url 3 2
  let status_code := r.1.1
  let data := r.1.2
  if status_code.isNone || data.isNone then .ok []
  else if status_code = some 200 then
    match data with
    | some (Json.arr (_ :: second :: _)) => do
      let e1 ← jsonAsDict second
      let e2 ← jsonAsDict (dget e1 "data" (Json.obj []))
      let comments_data ← jsonAsList (dget e2 "children" (Json.arr []))
      commentsLoop post_id (comments_data.take max_comments.toNat)
    | _ => .ok []
  else .ok []

/-- RedditService.get_comments_for_post: short-circuits to `[]` when
`max_comments <= 0` (before any network call); otherwise runs the `try:` body,
with the enclosing `except Exception` handler degrading failures to `[]`. -/
def get_comments_for_post (oracle : HttpOracle) (post_id subreddit : String)
    (max_comments : Int) : List Comment :=
  if max_comments ≤ 0 then []
  else
    match get_comments_core oracle post_id subreddit max_comments with
    | .ok cs => cs
    | .error _ => []

/-- Python `v > 0` on a JSON value (used on `post.get("num_comments", 0)`):
ints compare numerically, bools coerce to 0/1, anything else raises
`TypeError`. -/
def pyGtZero (v : Json) : Except String Bool :=
  match v with
  | .int n => .ok (decide (0 < n))
  | .bool b => .ok b
  | _ => .error "TypeError"

/-- The summary record written by `Actor.set_value("summary", ...)`. -/
structure SummaryRec where
  totalPosts : Nat
  subredditsScraped : Nat
  searchQuery : Option String
  timestamp : String

/-- One observable action of the orchestrator, in order: a RedditService call
(each service invocation performs network I/O), an inter-subreddit sleep, a
dataset push of one post, the summary write, or `Actor.fail(exit_code)`. -/
inductive OrchAction where
  | serviceCall : OrchAction
  | sleepAct : ℚ → OrchAction
  | push : Post → OrchAction
  | setSummary : SummaryRec → OrchAction
  | failExit : Nat → OrchAction

/-- The RedditService interface as the orchestrator sees it, abstracted as an
oracle so that per-community behavior (including a raised exception, modelled
as `.error`) can be chosen per scenario.  `getComments` takes the raw JSON
values `post["id"]` and `post["subreddit"]` that main.py passes. -/
structure ServiceOracle where
  getPosts : String → String → String → Int → Except String (List Post)
  searchPostsFn : String → String → Int → Except String (List Post)
  getComments : Json → Json → Int → Except String (List Comment)

/-- Record the fetched comments on a post (`post["comments"] = comments`). -/
def setComments (p : Post) (cs : List Comment) : Post :=
  ⟨p.id, p.title, p.selftext, p.author, p.subreddit, p.score, p.upvote_ratio,
   p.num_comments, p.created_utc, p.created_at, p.url, p.permalink, p.is_self,
   p.is_video, p.thumbnail, p.domain, p.source_type, p.source_name, some cs⟩

/-- The comment-enrichment loop shared by scrape_subreddits and search_reddit:
for every post with `num_comments > 0`, fetch and attach comments.  Returns the
(possibly failed) enriched list together with the service calls made before the
failure, if any. -/
def enrich_posts (svc : ServiceOracle) (mcpp : Int) :
    List Post → Except String (List Post) × List OrchAction
  | [] => (.ok [], [])
  | p :: ps =>
    match pyGtZero p.num_comments with
    | .error e => (.error e, [])
    | .ok false =>
      let r := enrich_posts svc mcpp ps
      (r.1.map (fun l => p :: l), r.2)
    | .ok true =>
      match svc.getComments p.id p.subreddit mcpp with
      | .error e => (.error e, [OrchAction.serviceCall])
      | .ok cs =>
        let r := enrich_posts svc mcpp ps
        (r.1.map (fun l => setComments p cs :: l), OrchAction.serviceCall :: r.2)

/-- main.scrape_subreddits: for each subreddit in order, fetch posts (and
optionally comments) inside a per-subreddit `try:`; on any exception log and
continue with the next subreddit, dropping only that subreddit's posts; sleep
the fixed delay between subreddits (not after the last, and not after a
failure, since the sleep sits inside the `try:`). -/
def scrape_subreddits (svc : ServiceOracle) (sort time_filter : String) (limit : Int)
    (include_comments : Bool) (max_comments_per_post : Int) :
    List String → List Post × List OrchAction
  | [] => ([], [])
  | subreddit :: rest =>
    match svc.getPosts subreddit sort time_filter limit with
    | .error _ =>
      let r := scrape_subreddits svc sort time_filter limit include_comments
        max_comments_per_post rest
      (r.1, OrchAction.serviceCall :: r.2)
    | .ok posts =>
      let enr := if include_comments then enrich_posts svc max_comments_per_post posts
        else (.ok posts, [])
      match enr with
      | (.error _, tr) =>
        let r := scrape_subreddits svc sort time_filter limit include_comments
          max_comments_per_post rest
        (r.1, OrchAction.serviceCall :: (tr ++ r.2))
      | (.ok posts2, tr) =>
        let sleepTr : List OrchAction := if rest = [] then [] else
          [OrchAction.sleepAct DELAY_BETWEEN_SUBREDDITS_SECONDS]
        let r := scrape_subreddits svc sort time_filter limit include_comments
          max_comments_per_post rest
        (posts2 ++ r.1, OrchAction.serviceCall :: (tr ++ sleepTr ++ r.2))

/-- main.search_reddit: one search call plus optional enrichment; it has no
`try:` of its own, so a raised exception propagates to run_scraper. -/
def search_reddit (svc : ServiceOracle) (query sort : String) (limit : Int)
    (include_comments : Bool) (max_comments_per_post : Int) :
    Except String (List Post) × List OrchAction :=
  match svc.searchPostsFn query sort limit with
  | .error e => (.error e, [OrchAction.serviceCall])
  | .ok posts =>
    if include_comments then
      let r := enrich_posts svc max_comments_per_post posts
      (r.1, OrchAction.serviceCall :: r.2)
    else (.ok posts, [OrchAction.serviceCall])

/-- main.run_scraper: validate the input (failing fast with exit code 1 before
any service construction or network call), scrape the configured subreddits,
run the search if a query is present, push every post in order, then write the
summary record; any exception escaping the big `try:` ends in
`Actor.fail(exit_code=1)`.  `now` stands for `datetime.now().isoformat()`. -/
def run_scraper (svc : ServiceOracle) (now : String) (input_data : InputData) : List OrchAction :=
  let subreddits := input_data.subreddits.getD []
  let search_query := input_data.searchQuery.getD ""
  let sort_by := input_data.sortBy.getD DEFAULT_SORT
  let time_filter := input_data.timeFilter.getD DEFAULT_TIME_FILTER
  let limit := input_data.limit.getD DEFAULT_LIMIT
  let include_comments := input_data.includeComments.getD false
  let max_comments_per_post := input_data.maxCommentsPerPost.getD DEFAULT_MAX_COMMENTS
  match validate_input input_data with
  | .error _ => [OrchAction.failExit 1]
  | .ok _ =>
    let scraped := if subreddits ≠ [] then
        scrape_subreddits svc sort_by time_filter limit include_comments
          max_comments_per_post subreddits
      else ([], [])
    let searched := if search_query ≠ "" then
        search_reddit svc search_query sort_by limit include_comments
          max_comments_per_post
      else (.ok [], [])
    match searched with
    | (.error _, tr2) => scraped.2 ++ tr2 ++ [OrchAction.failExit 1]
    | (.ok posts2, tr2) =>
      let all_posts := scraped.1 ++ posts2
      scraped.2 ++ tr2 ++ all_posts.map OrchAction.push ++
        [OrchAction.setSummary ⟨all_posts.length, subreddits.length,
          (if search_query = "" then none else some search_query), now⟩]

/-- The upstream comment-thread payload shape: a 2-element array whose second
element carries `data.children`. -/
def commentPayload (children : List Json) : Json :=
  Json.arr [Json.obj [],
    Json.obj [("data", Json.obj [("children", Json.arr children)])]]

/-- A child node shaped the way the upstream API shapes children: a dict whose
`data` value is a dict whose `created_utc` (when present) is representable by
`datetime`.  Under this shape the comment loop can neither raise nor fail. -/
def wellFormedChild (c : Json) : Bool :=
  match c with
  | .obj es =>
    match dget es "data" (Json.obj []) with
    | .obj des => tsOk (dget des "created_utc" (Json.int 0))
    | _ => false
  | _ => false

/-- The keep-predicate of the comment filter, stated over one raw child: its
`kind` tag is `"t1"` (so `"more"` placeholder nodes are excluded) and its body
is truthy (non-empty) and not the literal `"[deleted]"`. -/
def keepChild (c : Json) : Bool :=
  match c with
  | .obj es =>
    jsonEqb (dget es "kind" Json.null) (Json.str "t1") &&
      (match dget es "data" (Json.obj []) with
       | .obj des =>
         truthy (dget des "body" Json.null) &&
           ! jsonEqb (dget des "body" Json.null) (Json.str "[deleted]")
       | _ => false)
  | _ => false

/-- The normalized comment produced for one kept child. -/
def childNorm (post_id : String) (c : Json) : Comment :=
  match c with
  | .obj es =>
    match dget es "data" (Json.obj []) with
    | .obj des =>
      match normalize_comment_data des post_id with
      | .ok x => x
      | .error _ => default
    | _ => default
  | _ => default

/-- Does the trimmed name start with a character the lstrip set would remove? -/
def headNotRSlash (s : String) : Bool :=
  match s.data.head? with
  | none => true
  | some c => ! (c = 'r' || c = '/')

/-- Fixture: an upstream comment child whose body is live text. -/
def liveChild : Json := Json.obj [("kind", Json.str "t1"),
  ("data", Json.obj [("id", Json.str "c1"), ("body", Json.str "Great post!")])]

/-- Fixture: an upstream comment child whose body is the deleted sentinel. -/
def deletedChild : Json := Json.obj [("kind", Json.str "t1"),
  ("data", Json.obj [("id", Json.str "c0"), ("body", Json.str "[deleted]")])]

/-- Fixture: a service oracle whose every operation succeeds with no posts. -/
def trivialService : ServiceOracle :=
  ⟨fun _ _ _ _ => .ok [], fun _ _ _ => .ok [], fun _ _ _ => .ok []⟩

/-- Fixture: a service oracle where community "aaa" yields two posts and every
other community raises. -/
def failingSecondService : ServiceOracle :=
  ⟨fun sub _ _ _ => if sub = "aaa" then .ok [default, default] else .error "boom",
   fun _ _ _ => .ok [], fun _ _ _ => .ok []⟩

/-- Fixture: the post normalized from an empty raw dict by the search path. -/
def post0 : Post :=
  match normalize_post_data [] "search" "q" with
  | .ok p => p
  | .error _ => default

theorem strAppendAssoc (a b c : String) : a ++ b ++ c = a ++ (b ++ c) := by
  apply String.ext
  simp [String.data_append]

theorem pyLstrip_no_match (chars : List Char) (s : String)
    (h : ∀ c, s.data.head? = some c → chars.contains c = false) :
    pyLstrip chars s = s := by
  unfold pyLstrip
  cases s with
  | mk data =>
    cases data with
    | nil => rfl
    | cons c l =>
      have hc : decide (c ∈ chars) = false := by simpa using h c rfl
      simp [List.dropWhile, hc]

theorem pyLstrip_head_strips (s : String) (c : Char)
    (hh : (pyStrip s).data.head? = some c) (hc : c = 'r' ∨ c = '/') :
    clean_subreddit_name s ≠ pyStrip s := by
  unfold clean_subreddit_name pyLstrip
  intro heq
  have hdata := congrArg String.data heq
  cases hd : (pyStrip s).data with
  | nil => rw [hd] at hh; cases hh
  | cons a l =>
    rw [hd] at hh
    have hac : a = c := by
      simp only [List.head?_cons, Option.some.injEq] at hh
      exact hh
    have hpa : (['r', '/'] : List Char).contains a = true := by
      subst hac
      rcases hc with rfl | rfl <;> decide
    rw [hd] at hdata
    simp only [List.dropWhile_cons] at hdata
    rw [if_pos hpa] at hdata
    have hlen := congrArg List.length hdata
    have hle : (l.dropWhile (fun ch => (['r', '/'] : List Char).contains ch)).length ≤
        l.length := (List.dropWhile_sublist _).length_le
    simp only [List.length_cons] at hlen
    omega

theorem format_timestamp_ok_of_tsOk (v : Json) (h : tsOk v = true) :
    format_timestamp v = .ok (isoUtc ((jsonToNumber v).getD 0)) := by
  unfold tsOk at h
  cases hn : jsonToNumber v with
  | none => rw [hn] at h; simp at h
  | some ts =>
    rw [hn] at h
    simp only [decide_eq_true_eq] at h
    unfold format_timestamp
    simp only [hn, Option.getD_some]
    rw [if_neg (by unfold MIN_DATETIME_TS MAX_DATETIME_TS at h ⊢; omega)]

theorem normalize_post_isOk (post_data : List (String × Json)) (source_type source_name : String)
    (h : tsOk (dget post_data "created_utc" (Json.int 0)) = true) :
    ∃ p, normalize_post_data post_data source_type source_name = .ok p := by
  unfold normalize_post_data
  rw [format_timestamp_ok_of_tsOk _ h]
  exact ⟨_, rfl⟩

theorem normalize_comment_isOk (comment_data : List (String × Json)) (post_id : String)
    (h : tsOk (dget comment_data "created_utc" (Json.int 0)) = true) :
    ∃ c, normalize_comment_data comment_data post_id = .ok c := by
  unfold normalize_comment_data
  rw [format_timestamp_ok_of_tsOk _ h]
  exact ⟨_, rfl⟩

theorem retry_all403 (oracle : HttpOracle) (url text : String) (b : Option Json)
    (h : ∀ i, oracle url i = .response 403 b (some text)) :
    _make_request_with_retry oracle url 3 2 =
      ((some 403, some (Json.obj [("error", Json.str text)])), [2, 4]) := by
  have hr : List.range 3 = [0, 1, 2] := by decide
  unfold _make_request_with_retry
  rw [hr]
  simp [retryGo, h 0, h 1, h 2]
  norm_num

theorem retry_allexc (oracle : HttpOracle) (url : String)
    (h : ∀ i, oracle url i = .exc) :
    _make_request_with_retry oracle url 3 2 = ((none, none), [2, 4]) := by
  have hr : List.range 3 = [0, 1, 2] := by decide
  unfold _make_request_with_retry
  rw [hr]
  simp [retryGo, h 0, h 1, h 2]
  norm_num

theorem retry_first200 (oracle : HttpOracle) (url : String) (body : Option Json)
    (t : Option String) (h : oracle url 0 = .response 200 body t) :
    _make_request_with_retry oracle url 3 2 = ((some 200, body), []) := by
  have hr : List.range 3 = [0, 1, 2] := by decide
  unfold _make_request_with_retry
  rw [hr]
  simp [retryGo, h]

theorem except_bind_ok {α β : Type} (a : α) (f : α → Except String β) :
    (Except.ok a : Except String α) >>= f = f a := rfl

theorem commentsLoop_wf (post_id : String) (l : List Json)
    (h : ∀ c ∈ l, wellFormedChild c = true) :
    commentsLoop post_id l = .ok ((l.filter keepChild).map (childNorm post_id)) := by
  induction l with
  | nil => rfl
  | cons c rest ih =>
    have hc := h c (List.mem_cons_self c rest)
    have ihr := ih (fun x hx => h x (List.mem_cons_of_mem c hx))
    cases c with
    | null => simp [wellFormedChild] at hc
    | bool b => simp [wellFormedChild] at hc
    | int n => simp [wellFormedChild] at hc
    | str s => simp [wellFormedChild] at hc
    | arr a => simp [wellFormedChild] at hc
    | obj es =>
      simp only [wellFormedChild] at hc
      cases hd : dget es "data" (Json.obj []) with
      | null => rw [hd] at hc; simp at hc
      | bool b => rw [hd] at hc; simp at hc
      | int n => rw [hd] at hc; simp at hc
      | str s => rw [hd] at hc; simp at hc
      | arr a => rw [hd] at hc; simp at hc
      | obj des =>
        rw [hd] at hc
        simp only [] at hc
        cases hkind : jsonEqb (dget es "kind" Json.null) (Json.str "t1") with
        | false =>
          have hk : keepChild (Json.obj es) = false := by
            simp [keepChild, hkind]
          simp [commentsLoop, except_bind_ok, jsonAsDict, hkind, ihr, List.filter_cons, hk]
        | true =>
          cases hbody : truthy (dget des "body" Json.null) &&
              ! jsonEqb (dget des "body" Json.null) (Json.str "[deleted]") with
          | false =>
            have hk : keepChild (Json.obj es) = false := by
              simp only [keepChild, hkind, hd, hbody]
              simp
            have hcond : ¬ (truthy (dget des "body" Json.null) = true ∧
                jsonEqb (dget des "body" Json.null) (Json.str "[deleted]") = false) := by
              intro hp
              rw [hp.1, hp.2] at hbody
              simp at hbody
            simp [commentsLoop, except_bind_ok, jsonAsDict, hd, hkind, ihr,
              List.filter_cons, hk, hcond]
          | true =>
            simp only [Bool.and_eq_true, Bool.not_eq_true'] at hbody
            obtain ⟨x, hx⟩ := normalize_comment_isOk des post_id hc
            have hk : keepChild (Json.obj es) = true := by
              simp only [keepChild, hkind, hd]
              simp [hbody.1, hbody.2]
            have hn : childNorm post_id (Json.obj es) = x := by
              simp [childNorm, hd, hx]
            simp [commentsLoop, except_bind_ok, jsonAsDict, hd, hkind, hbody.1, hbody.2,
              ihr, hx, List.filter_cons, hk, hn]

/-- C1 (amended): the community-listing URL builder clamps `limit` from above
only.  The embedded value is `min(limit, 100)`: it never exceeds 100 and lies
in [1,100] whenever `limit ≥ 1`, but a `limit` below 1 is embedded unchanged
(there is no lower clamp). -/
theorem build_subreddit_url_clamps_upper (limit : Int) :
    subredditLimitParam limit ≤ 100 ∧
    (1 ≤ limit → 1 ≤ subredditLimitParam limit ∧ subredditLimitParam limit ≤ 100) ∧
    (limit < 1 → subredditLimitParam limit = limit) ∧
    ∀ subreddit sort time_filter,
      _build_subreddit_url subreddit sort time_filter limit =
        REDDIT_BASE_URL ++ "/r/" ++ clean_subreddit_name subreddit ++ "/" ++ sort ++
          ".json" ++ "?" ++
          (if sort = "top" ∧ time_filter ∈ VALID_TIME_FILTERS
            then "limit" ++ "=" ++ toString (subredditLimitParam limit) ++ "&" ++
              ("t" ++ "=" ++ time_filter)
            else "limit" ++ "=" ++ toString (subredditLimitParam limit)) := by
  refine ⟨?_, ?_, ?_, ?_⟩
  · unfold subredditLimitParam MAX_POSTS_PER_REQUEST
    omega
  · intro h
    unfold subredditLimitParam MAX_POSTS_PER_REQUEST
    omega
  · intro h
    unfold subredditLimitParam MAX_POSTS_PER_REQUEST
    omega
  · intro subreddit sort time_filter
    by_cases h : sort = "top" ∧ time_filter ∈ VALID_TIME_FILTERS
    · simp only [_build_subreddit_url, if_pos h, joinParams]
    · simp only [_build_subreddit_url, if_neg h, joinParams]

/-- C1 counterexample: with `limit = 0` the builder embeds the literal
`limit=0` in the URL — a value outside `[1,100]` — refuting the claim that
inputs below 1 are clamped into the range. -/
theorem build_subreddit_url_embeds_zero :
    _build_subreddit_url "python" "new" "day" 0 =
      "https://old.reddit.com/r/python/new.json?limit=0" ∧
    subredditLimitParam 0 = 0 ∧ ¬ (1 ≤ subredditLimitParam 0) := by
  refine ⟨by decide, by decide, by decide⟩

/-- C1 witness: the amended theorem applied at `limit = 150` and `limit = -5`. -/
theorem build_subreddit_url_clamps_upper_witness :
    (1 ≤ subredditLimitParam 150 ∧ subredditLimitParam 150 ≤ 100) ∧
    subredditLimitParam (-5) = -5 :=
  ⟨(build_subreddit_url_clamps_upper 150).2.1 (by norm_num),
   (build_subreddit_url_clamps_upper (-5)).2.2.1 (by norm_num)⟩

/-- C2 (amended): after trimming surrounding whitespace, `clean_subreddit_name`
removes every leading character drawn from the set `{r, /}` — not just literal
`r/` prefixes.  The three quoted examples hold, and a name is returned
unchanged exactly when its trimmed form does not begin with `r` or `/` (so it
is NOT unchanged for all names lacking an `r/` prefix: see the
counterexample). -/
theorem clean_subreddit_name_charset_trim :
    clean_subreddit_name "r/python" = "python" ∧
    clean_subreddit_name "python" = "python" ∧
    clean_subreddit_name "  r/python  " = "python" ∧
    ∀ s, clean_subreddit_name s = pyStrip s ↔ headNotRSlash (pyStrip s) = true := by
  refine ⟨by decide, by decide, by decide, ?_⟩
  intro s
  constructor
  · intro heq
    cases hh : (pyStrip s).data.head? with
    | none => simp [headNotRSlash, hh]
    | some c =>
      simp only [headNotRSlash, hh]
      by_contra hne
      simp only [Bool.not_eq_true, Bool.not_eq_false', Bool.or_eq_true,
        decide_eq_true_eq] at hne
      exact pyLstrip_head_strips s c hh hne heq
  · intro hs
    unfold clean_subreddit_name
    apply pyLstrip_no_match
    intro c hc
    unfold headNotRSlash at hs
    rw [hc] at hs
    simp at hs
    simp [hs.1, hs.2]

/-- C2 counterexample: `"rust"` is already trimmed and does not start with the
literal `r/` prefix, yet cleaning changes it to `"ust"`, refuting idempotence
on already-clean names. -/
theorem clean_subreddit_name_overstrips :
    pyStrip "rust" = "rust" ∧
    ¬ ("rust".data.take 2 = ['r', '/']) ∧
    clean_subreddit_name "rust" = "ust" ∧
    clean_subreddit_name "rust" ≠ "rust" := by
  refine ⟨by decide, by decide, by decide, by decide⟩

/-- C2 witness: the amended theorem's biconditional applied at `"python"`
(trimmed form starts with `p`, so cleaning leaves it unchanged) and at
`"rust"` (trimmed form starts with `r`, so cleaning changes it). -/
theorem clean_subreddit_name_charset_trim_witness :
    clean_subreddit_name "python" = pyStrip "python" ∧
    ¬ clean_subreddit_name "rust" = pyStrip "rust" :=
  ⟨(clean_subreddit_name_charset_trim.2.2.2 "python").mpr (by decide),
   fun h => by
    have := (clean_subreddit_name_charset_trim.2.2.2 "rust").mp h
    exact absurd this (by decide)⟩

/-- C3 (amended): the Normalizer's field access is total (every missing field
falls back to its default), and `normalize_post_data` / `normalize_comment_data`
produce a valid record without raising for every raw input whose `created_utc`
value — when present — reads as a number in datetime's representable range; a
non-numeric `created_utc` makes `format_timestamp` raise (see the
counterexample), so the Normalizer is not total over every value of every
field. -/
theorem normalizer_total_on_numeric_timestamps (post_data comment_data : List (String × Json))
    (source_type source_name post_id : String)
    (hp : tsOk (dget post_data "created_utc" (Json.int 0)) = true)
    (hc : tsOk (dget comment_data "created_utc" (Json.int 0)) = true) :
    (normalize_post_data post_data source_type source_name).isOk = true ∧
    (normalize_comment_data comment_data post_id).isOk = true := by
  obtain ⟨p, hpe⟩ := normalize_post_isOk post_data source_type source_name hp
  obtain ⟨c, hce⟩ := normalize_comment_isOk comment_data post_id hc
  rw [hpe, hce]
  exact ⟨rfl, rfl⟩

/-- C3 counterexample: a raw post whose `created_utc` is JSON `null` (and a raw
comment whose `created_utc` is a string) makes normalization raise `TypeError`
inside `format_timestamp`, refuting totality over every shape of raw input. -/
theorem normalizer_raises_on_null_timestamp :
    normalize_post_data [("created_utc", Json.null)] "search" "q" = .error "TypeError" ∧
    normalize_comment_data [("created_utc", Json.str "yesterday")] "abc123" =
      .error "TypeError" :=
  ⟨rfl, rfl⟩

/-- C3 witness: the amended theorem applied to empty raw dicts, whose
`created_utc` defaults to epoch 0. -/
theorem normalizer_total_witness :
    (normalize_post_data [] "search" "q").isOk = true ∧
    (normalize_comment_data [] "abc123").isOk = true :=
  normalizer_total_on_numeric_timestamps [] [] "search" "q" "abc123" (by decide) (by decide)

/-- C4 (amended): every 403 response with attempts remaining
(`attempt < max_retries - 1`) triggers a sleep of `retry_delay * 2 ^ attempt`
before the next attempt; under consecutive 403 responses with maxRetries = 3
and base delay 2.0 the schedule is 2s after attempt 0 and 4s after attempt 1
only — attempt 2 is the final attempt, has no attempts remaining, and returns
`(403, {"error": text})` with no 8-second sleep. -/
theorem retry_backoff_two_sleeps (oracle : HttpOracle) (url text : String) (b : Option Json)
    (h403 : ∀ i, oracle url i = .response 403 b (some text)) :
    _make_request_with_retry oracle url 3 2 =
      ((some 403, some (Json.obj [("error", Json.str text)])), [2, 4]) ∧
    ∀ (max_retries : Nat) (retry_delay : ℚ) (attempt : Nat) (rest : List Nat)
      (sleeps : List ℚ), attempt < max_retries - 1 →
      retryGo oracle url max_retries retry_delay (attempt :: rest) sleeps =
        retryGo oracle url max_retries retry_delay rest
          (sleeps ++ [retry_delay * 2 ^ attempt]) := by
  constructor
  · exact retry_all403 oracle url text b h403
  · intro max_retries retry_delay attempt rest sleeps hrem
    simp [retryGo, h403 attempt, hrem]

/-- C4 counterexample: under three consecutive 403 responses the recorded sleep
schedule is `[2, 4]` — there is no `8`-second sleep before the final attempt,
refuting the claimed `2s, 4s, 8s` schedule. -/
theorem retry_backoff_no_eight_second_sleep :
    (_make_request_with_retry
      (fun _ _ => HttpAttempt.response 403 none (some "Forbidden")) "u" 3 2).2 = [2, 4] ∧
    (8 : ℚ) ∉ (_make_request_with_retry
      (fun _ _ => HttpAttempt.response 403 none (some "Forbidden")) "u" 3 2).2 := by
  have h := retry_all403 (fun _ _ => HttpAttempt.response 403 none (some "Forbidden"))
    "u" "Forbidden" none (fun _ => rfl)
  rw [h]
  norm_num

/-- C4 witness: the amended theorem applied to the constant-403 oracle. -/
theorem retry_backoff_two_sleeps_witness :
    _make_request_with_retry
      (fun _ _ => HttpAttempt.response 403 none (some "Forbidden")) "u" 3 2 =
      ((some 403, some (Json.obj [("error", Json.str "Forbidden")])), [2, 4]) :=
  (retry_backoff_two_sleeps (fun _ _ => HttpAttempt.response 403 none (some "Forbidden"))
    "u" "Forbidden" none (fun _ => rfl)).1

/-- C6: the search URL builder does NOT URL-encode the query — it embeds it
verbatim via a plain `key=value` join, for every input query; in particular a
query containing a space, `&` and `=` appears in the URL unescaped. -/
theorem build_search_url_embeds_raw_query :
    (∀ query sort limit, _build_search_url query sort limit =
      REDDIT_BASE_URL ++ "/search.json" ++ "?" ++
        ("q" ++ "=" ++ query ++ "&" ++
          ("limit" ++ "=" ++ toString (min limit MAX_POSTS_PER_REQUEST) ++ "&" ++
            ("sort" ++ "=" ++ sort)))) ∧
    _build_search_url "a b&c=d" "new" 25 =
      "https://old.reddit.com/search.json?q=a b&c=d&limit=25&sort=new" := by
  constructor
  · intro query sort limit
    simp only [_build_search_url, joinParams]
  · decide

theorem except_bind_error {α β : Type} (e : String) (f : α → Except String β) :
    (Except.error e : Except String α) >>= f = Except.error e := rfl

/-- C5 (confirmed): on a successful 2-element comment payload, fetching
comments truncates the children to `max_comments` first and then keeps exactly
the children whose `kind` tag is `"t1"` (excluding "load more" placeholders)
and whose body is non-empty and not the `"[deleted]"` sentinel, normalizing
each kept child. -/
theorem get_comments_filter_truncate (oracle : HttpOracle) (post_id subreddit : String)
    (max_comments : Int) (children : List Json)
    (hmc : 0 < max_comments)
    (hwf : ∀ c ∈ children, wellFormedChild c = true)
    (ho : ∀ url i, oracle url i = .response 200 (some (commentPayload children)) none) :
    get_comments_for_post oracle post_id subreddit max_comments =
      ((children.take max_comments.toNat).filter keepChild).map (childNorm post_id) := by
  have hretry : ∀ u, _make_request_with_retry oracle u 3 2 =
      ((some 200, some (commentPayload children)), []) :=
    fun u => retry_first200 oracle u (some (commentPayload children)) none (ho u 0)
  have hwf2 : ∀ c ∈ children.take max_comments.toNat, wellFormedChild c = true :=
    fun c hcm => hwf c (List.take_subset _ _ hcm)
  unfold get_comments_for_post
  rw [if_neg (by omega)]
  unfold get_comments_core
  simp only [hretry, commentPayload, Option.isNone_some, Bool.or_self, Bool.false_eq_true,
    if_false, except_bind_ok, jsonAsDict, jsonAsList, dget, List.lookup]
  simp [List.lookup, except_bind_ok, commentsLoop_wf post_id _ hwf2]

/-- C5 witness: the theorem applied end-to-end to a payload holding one deleted
and one live comment, with `max_comments = 10`: the result keeps exactly one
comment. -/
theorem get_comments_filter_truncate_witness :
    get_comments_for_post
      (fun _ _ => HttpAttempt.response 200
        (some (commentPayload [deletedChild, liveChild])) none)
      "abc123" "test" 10 =
      (([deletedChild, liveChild].take (10 : Int).toNat).filter keepChild).map
        (childNorm "abc123") ∧
    (get_comments_for_post
      (fun _ _ => HttpAttempt.response 200
        (some (commentPayload [deletedChild, liveChild])) none)
      "abc123" "test" 10).length = 1 := by
  have h := get_comments_filter_truncate
    (fun _ _ => HttpAttempt.response 200
      (some (commentPayload [deletedChild, liveChild])) none)
    "abc123" "test" 10 [deletedChild, liveChild] (by norm_num)
    (by intro c hc; simp only [List.mem_cons, List.not_mem_nil, or_false] at hc
        rcases hc with rfl | rfl <;> rfl)
    (fun _ _ => rfl)
  refine ⟨h, ?_⟩
  rw [h]
  rfl

/-- C7 (confirmed): when retries are exhausted the retry client yields a
terminal value, never an exception: three consecutive 403 responses end in
`(403, {"error": text})`, while transport-level exhaustion ends in
`(None, None)` — both status code and body absent, distinct from every
got-a-real-HTTP-status outcome — and in both cases the calling fetch operation
returns the empty list with no unhandled error. -/
theorem retry_exhaustion_terminal (o403 oExc : HttpOracle)
    (text subreddit sort time_filter : String) (limit : Int)
    (h403 : ∀ u i, o403 u i = .response 403 none (some text))
    (hexc : ∀ u i, oExc u i = .exc) :
    (∀ u, (_make_request_with_retry o403 u 3 2).1 =
      (some 403, some (Json.obj [("error", Json.str text)]))) ∧
    (∀ u, (_make_request_with_retry oExc u 3 2).1 = (none, none)) ∧
    get_posts_from_subreddit o403 subreddit sort time_filter limit = [] ∧
    get_posts_from_subreddit oExc subreddit sort time_filter limit = [] := by
  have ha : ∀ u, _make_request_with_retry o403 u 3 2 =
      ((some 403, some (Json.obj [("error", Json.str text)])), [2, 4]) :=
    fun u => retry_all403 o403 u text none (h403 u)
  have hb : ∀ u, _make_request_with_retry oExc u 3 2 = ((none, none), [2, 4]) :=
    fun u => retry_allexc oExc u (hexc u)
  refine ⟨fun u => by rw [ha u], fun u => by rw [hb u], ?_, ?_⟩
  · unfold get_posts_from_subreddit get_posts_core
    simp only [ha]
    simp
  · unfold get_posts_from_subreddit get_posts_core
    simp only [hb]
    simp

/-- C7 witness: the theorem applied to the constant-403 and constant-exception
oracles. -/
theorem retry_exhaustion_terminal_witness :
    get_posts_from_subreddit
      (fun _ _ => HttpAttempt.response 403 none (some "Blocked"))
      "python" "new" "day" 25 = [] ∧
    get_posts_from_subreddit (fun _ _ => HttpAttempt.exc) "python" "new" "day" 25 = [] := by
  have h := retry_exhaustion_terminal
    (fun _ _ => HttpAttempt.response 403 none (some "Blocked"))
    (fun _ _ => HttpAttempt.exc) "Blocked" "python" "new" "day" 25
    (fun _ _ => rfl) (fun _ _ => rfl)
  exact ⟨h.2.2.1, h.2.2.2⟩

/-- C8 (confirmed): validation accepts a configuration exactly when a non-empty
community list or a non-empty search query is present, the sort is one of
{new, hot, top, rising}, and the limit is an integer in [1,100]; and whenever
validation fails, the run performs no service call and no output, terminating
with exit code 1.  (Configuration values are typed per the spec's recognized-keys
schema, so "limit is an integer" holds by type.) -/
theorem validate_input_iff_and_failfast (input_data : InputData) (svc : ServiceOracle)
    (now : String) :
    ((validate_input input_data).isOk = true ↔
      ¬ (input_data.subreddits.getD [] = [] ∧ input_data.searchQuery.getD "" = "") ∧
        input_data.sortBy.getD "new" ∈ VALID_SORT_OPTIONS ∧
        1 ≤ input_data.limit.getD 25 ∧ input_data.limit.getD 25 ≤ 100) ∧
    ((validate_input input_data).isOk = false →
      run_scraper svc now input_data = [OrchAction.failExit 1]) := by
  constructor
  · simp only [validate_input, VALID_SORT_OPTIONS]
    split_ifs with h1 h2 h3
    · constructor
      · intro hco
        exact absurd hco (by decide)
      · rintro ⟨hne, -⟩
        exact absurd h1 hne
    · constructor
      · intro hco
        exact absurd hco (by decide)
      · rintro ⟨-, -, hl1, hl2⟩
        omega
    · constructor
      · intro _
        refine ⟨h1, h2, ?_, ?_⟩ <;> omega
      · intro _
        rfl
    · constructor
      · intro hco
        exact absurd hco (by decide)
      · rintro ⟨-, hmem, -⟩
        exact absurd hmem h2
  · intro hfail
    unfold run_scraper
    cases hv : validate_input input_data with
    | error e => rfl
    | ok u => rw [hv] at hfail; simp [Except.isOk, Except.toBool] at hfail

/-- C8 witness: the theorem applied to the empty configuration, which fails
validation, so the orchestrator emits only `Actor.fail(1)` — no service call,
no push, no summary. -/
theorem validate_input_iff_witness :
    run_scraper trivialService "now" ⟨none, none, none, none, none, none, none⟩ =
      [OrchAction.failExit 1] :=
  (validate_input_iff_and_failfast ⟨none, none, none, none, none, none, none⟩
    trivialService "now").2 (by decide)

/-- C9 (confirmed): per-community failures are isolated.  With two communities
where the first yields 2 posts and processing the second raises, the run's
output is exactly: the two service calls (with the inter-community sleep), the
push of each of the first community's 2 posts, and one summary record whose
`subredditsScraped` equals 2, the number of configured communities — the
already-fetched posts are not discarded. -/
theorem per_community_failure_isolated (svc : ServiceOracle) (s1 s2 now : String)
    (pA pB : Post) (e : String)
    (h1 : svc.getPosts s1 "new" "day" 25 = .ok [pA, pB])
    (h2 : svc.getPosts s2 "new" "day" 25 = .error e) :
    run_scraper svc now ⟨some [s1, s2], none, none, none, none, none, none⟩ =
      [OrchAction.serviceCall, OrchAction.sleepAct DELAY_BETWEEN_SUBREDDITS_SECONDS,
       OrchAction.serviceCall, OrchAction.push pA, OrchAction.push pB,
       OrchAction.setSummary ⟨2, 2, none, now⟩] := by
  have hvalid : validate_input ⟨some [s1, s2], none, none, none, none, none, none⟩ =
      .ok () := rfl
  unfold run_scraper
  simp only [hvalid, scrape_subreddits, DEFAULT_SORT, DEFAULT_TIME_FILTER, DEFAULT_LIMIT,
    h1, h2, search_reddit]
  simp [h1, h2]

/-- C9 witness: the theorem applied to a concrete oracle where community "aaa"
yields two posts and community "bbb" raises. -/
theorem per_community_failure_isolated_witness :
    run_scraper failingSecondService "now"
      ⟨some ["aaa", "bbb"], none, none, none, none, none, none⟩ =
      [OrchAction.serviceCall, OrchAction.sleepAct DELAY_BETWEEN_SUBREDDITS_SECONDS,
       OrchAction.serviceCall, OrchAction.push default, OrchAction.push default,
       OrchAction.setSummary ⟨2, 2, none, "now"⟩] :=
  per_community_failure_isolated failingSecondService "aaa" "bbb" "now"
    default default "boom" rfl rfl

/-- C10 (confirmed): for every raw post object lacking a `"subreddit"` key,
`normalize_post_data` sets the normalized community-name field to the supplied
`source_name` argument (not a fixed sentinel) — so a search-sourced post
missing that field reports the search query string (the `source_name` the
search path passes) as its community. -/
theorem normalize_post_subreddit_fallback (post_data : List (String × Json))
    (source_type source_name : String) (p : Post)
    (hmiss : post_data.lookup "subreddit" = none)
    (hok : normalize_post_data post_data source_type source_name = .ok p) :
    p.subreddit = Json.str source_name := by
  unfold normalize_post_data at hok
  cases hft : format_timestamp (dget post_data "created_utc" (Json.int 0)) with
  | error e =>
    rw [hft, except_bind_error] at hok
    cases hok
  | ok ca =>
    rw [hft, except_bind_ok] at hok
    cases hok
    simp [dget, hmiss]

/-- C10 witness: the theorem applied to the empty raw post dict normalized via
the search path with query `"q"`. -/
theorem normalize_post_subreddit_fallback_witness : post0.subreddit = Json.str "q" :=
  normalize_post_subreddit_fallback [] "search" "q" post0 rfl rfl
